import Mathlib

/-
Shallow embedding of the LSM303 Arduino driver (src/LSM303/LSM303.cpp).

Modelling conventions:
- C integer types are modelled as Lean `Int`/`Nat` with explicit wrapping
  (`int16OfNat`, `int32OfInt`) at the points where the C code narrows or
  can overflow.  Bytes coming off the bus (`Wire.read()` returns `uint8_t`)
  are modelled as `Fin 256`.
- The I2C bus is external.  For `testReg` probes it is modelled as a pure
  response script `Probe : Nat -> Int -> Option (Fin 256)` (address and
  register to optional response byte; `none` models a NACK / no response,
  matching the `TEST_REG_NACK` sentinel in the source).  For the 6-byte
  burst reads of `readAcc`/`readMag` it is modelled by the number of bytes
  that ever become available (`avail`) together with the six data bytes in
  the order the master reads them.  The polling loop against `millis()` is
  modelled by its outcome: with fewer than 6 bytes available the loop exits
  through the timeout branch when `io_timeout > 0` and never exits when
  `io_timeout = 0` (modelled as `none`, i.e. divergence).
- The `last_status` member (the stored `Wire.endTransmission()` status
  code) is a pure diagnostic byte never read by the driver itself; it is
  not part of the modelled state.
- The bodies below are translated line by line from LSM303.cpp; register
  address constants that live in the missing header LSM303.h are modelled
  from the spec where noted.
-/

/-- Device variants, from the `deviceType` enumeration used by the source
(`device_DLH`, `device_DLM`, `device_DLHC`, `device_D`, `device_auto`). -/
inductive deviceType where
  | device_DLH
  | device_DLM
  | device_DLHC
  | device_D
  | device_auto
deriving DecidableEq, Repr

export deviceType (device_DLH device_DLM device_DLHC device_D device_auto)

/-- SA0 address-strap state, from the `sa0State` enumeration used by the
source (`sa0_low`, `sa0_high`, `sa0_auto`). -/
inductive sa0State where
  | sa0_low
  | sa0_high
  | sa0_auto
deriving DecidableEq, Repr

export sa0State (sa0_low sa0_high sa0_auto)

/-- A bus data byte (`uint8_t`). -/
abbrev Byte := Fin 256

-- 7-bit bus addresses, from the #defines at the top of LSM303.cpp.
def D_SA0_HIGH_ADDRESS : Nat := 0b0011101
def D_SA0_LOW_ADDRESS : Nat := 0b0011110
def NON_D_MAG_ADDRESS : Nat := 0b0011110
def NON_D_ACC_SA0_LOW_ADDRESS : Nat := 0b0011000
def NON_D_ACC_SA0_HIGH_ADDRESS : Nat := 0b0011001

/-- Sentinel returned by `testReg` when the probed device does not
respond (`#define TEST_REG_NACK -1`). -/
def TEST_REG_NACK : Int := -1

def D_WHO_ID : Int := 0x49
def DLM_WHO_ID : Int := 0x3C

/-- Modelled from the spec: the identification register id (`WHO_AM_I`)
is declared in the missing header LSM303.h; the spec calls it the
identification register probed during variant resolution. -/
def WHO_AM_I : Int := 0x0F

/-- Modelled from the spec: the first accelerometer control register id
(`CTRL_REG1_A`) is declared in the missing header LSM303.h; the spec uses
it both as the configuration register probed at the non-unified
accelerometer addresses and as the lower bound of the accelerometer
register-id range in the routing logic. -/
def CTRL_REG1_A : Int := 0x20

/-- Modelled from the spec: temperature output high-byte register id
(`TEMP_OUT_H_M`), one of the two fixed exception registers of the routing
logic; declared in the missing header LSM303.h. -/
def TEMP_OUT_H_M : Int := 0x31

/-- Modelled from the spec: temperature output low-byte register id
(`TEMP_OUT_L_M`), the other fixed exception register of the routing
logic; declared in the missing header LSM303.h.  Its exact value only
matters to the routing condition through being non-zero. -/
def TEMP_OUT_L_M : Int := 0x32

/-- Modelled from the spec: the six negative dummy magnetometer
axis-output register ids declared in the missing header LSM303.h; the
driver translates exactly these to per-variant physical addresses. -/
def OUT_X_H_M : Int := -1

/-- Modelled from the spec: see `OUT_X_H_M`. -/
def OUT_X_L_M : Int := -2

/-- Modelled from the spec: see `OUT_X_H_M`. -/
def OUT_Y_H_M : Int := -3

/-- Modelled from the spec: see `OUT_X_H_M`. -/
def OUT_Y_L_M : Int := -4

/-- Modelled from the spec: see `OUT_X_H_M`. -/
def OUT_Z_H_M : Int := -5

/-- Modelled from the spec: see `OUT_X_H_M`. -/
def OUT_Z_L_M : Int := -6

-- Modelled from the spec: physical magnetometer output register
-- addresses per variant (declared in the missing header LSM303.h,
-- values from the respective device register maps).  The D variant
-- auto-increments from low-byte X; the DLH/DLM/DLHC variants start at
-- high-byte X at address 0x03 with the per-variant axis orders the spec
-- lists.
def D_OUT_X_L_M : Int := 0x08
def D_OUT_X_H_M : Int := 0x09
def D_OUT_Y_L_M : Int := 0x0A
def D_OUT_Y_H_M : Int := 0x0B
def D_OUT_Z_L_M : Int := 0x0C
def D_OUT_Z_H_M : Int := 0x0D
def DLH_OUT_X_H_M : Int := 0x03
def DLH_OUT_X_L_M : Int := 0x04
def DLH_OUT_Y_H_M : Int := 0x05
def DLH_OUT_Y_L_M : Int := 0x06
def DLH_OUT_Z_H_M : Int := 0x07
def DLH_OUT_Z_L_M : Int := 0x08
def DLM_OUT_X_H_M : Int := 0x03
def DLM_OUT_X_L_M : Int := 0x04
def DLM_OUT_Z_H_M : Int := 0x05
def DLM_OUT_Z_L_M : Int := 0x06
def DLM_OUT_Y_H_M : Int := 0x07
def DLM_OUT_Y_L_M : Int := 0x08
def DLHC_OUT_X_H_M : Int := 0x03
def DLHC_OUT_X_L_M : Int := 0x04
def DLHC_OUT_Z_H_M : Int := 0x05
def DLHC_OUT_Z_L_M : Int := 0x06
def DLHC_OUT_Y_H_M : Int := 0x07
def DLHC_OUT_Y_L_M : Int := 0x08

/-- A 3-component integer vector (`vector<int16_t>` / `vector<int>` in
the source). -/
structure Vec3 where
  x : Int
  y : Int
  z : Int
deriving DecidableEq, Repr

/-- The driver state: the data members of class LSM303 that the modelled
operations read or write (`last_status` excluded, see the header
comment). -/
structure LSM303 where
  _device : deviceType
  a : Vec3
  m : Vec3
  m_min : Vec3
  m_max : Vec3
  io_timeout : Nat
  did_timeout : Bool
  acc_address : Nat
  mag_address : Nat
  out_x_l_m : Int
  out_x_h_m : Int
  out_y_l_m : Int
  out_y_h_m : Int
  out_z_l_m : Int
  out_z_h_m : Int
deriving DecidableEq, Repr

/-- Reinterpret a (promoted, nonnegative) C integer as `int16_t`:
reduce modulo 2^16 and pick the representative in [-32768, 32767]. -/
def int16OfNat (n : Nat) : Int :=
  if n % 65536 < 32768 then (n % 65536 : Nat) else (n % 65536 : Nat) - 65536

/-- Wrap an integer into `int32_t` (two's complement, modulo 2^32 with
representative in [-2^31, 2^31)). -/
def int32OfInt (v : Int) : Int :=
  if v % 4294967296 < 2147483648 then v % 4294967296
  else v % 4294967296 - 4294967296

/-- Arithmetic (sign-extending) right shift by 4 of a signed value, the
GCC behavior of `>>= 4` on a negative `int16_t` that the source comments
rely on; equals floor division by 16. -/
def asr4 (v : Int) : Int := Int.fdiv v 16

/-- `hi << 8 | lo` on two bus bytes, as in the axis-combining lines of
`readAcc`/`readMag`. -/
def hiLo (hi lo : Byte) : Nat := (hi.1 <<< 8) ||| lo.1

/-- The six data bytes of a burst read, in the order the master reads
them off the bus. -/
structure Burst6 where
  b0 : Byte
  b1 : Byte
  b2 : Byte
  b3 : Byte
  b4 : Byte
  b5 : Byte
deriving DecidableEq, Repr

/-- `LSM303::LSM303()`: the constructor.  Data members it does not
mention are left uninitialized in C++; the model takes their arbitrary
initial contents as the argument. -/
def construct (uninit : LSM303) : LSM303 :=
  { uninit with
    m_max := ⟨32767, 32767, 32767⟩
    m_min := ⟨-32767, -32767, -32767⟩
    _device := device_auto
    io_timeout := 0
    did_timeout := false }

/-- `LSM303::readAcc()`.  `avail` is the number of bytes that ever become
available after the 6-byte burst request; `bytes` are the data bytes in
read order.  `none` models the nonterminating poll loop (fewer than 6
bytes and `io_timeout = 0`). -/
def readAcc (s : LSM303) (avail : Nat) (bytes : Burst6) : Option LSM303 :=
  -- beginTransmission / write(OUT_X_L_A | (1 << 7)) / endTransmission /
  -- requestFrom: the burst request itself has no effect on the modelled state.
  let s := { s with did_timeout := false }
  if avail < 6 then
    if 0 < s.io_timeout then some { s with did_timeout := true }
    else none
  else
    let xla := bytes.b0
    let xha := bytes.b1
    let yla := bytes.b2
    let yha := bytes.b3
    let zla := bytes.b4
    let zha := bytes.b5
    let a0 : Vec3 :=
      ⟨int16OfNat (hiLo xha xla), int16OfNat (hiLo yha yla), int16OfNat (hiLo zha zla)⟩
    let a1 : Vec3 :=
      if s._device ≠ device_D then ⟨asr4 a0.x, asr4 a0.y, asr4 a0.z⟩ else a0
    some { s with a := a1 }

/-- `LSM303::readMag()`.  Same bus model as `readAcc`.  The six local
byte variables are assigned per variant exactly as in the source's
branches; the tuple is (xlm, xhm, ylm, yhm, zlm, zhm). -/
def readMag (s : LSM303) (avail : Nat) (bytes : Burst6) : Option LSM303 :=
  let s := { s with did_timeout := false }
  if avail < 6 then
    if 0 < s.io_timeout then some { s with did_timeout := true }
    else none
  else
    let asg : Byte × Byte × Byte × Byte × Byte × Byte :=
      if s._device = device_D then
        -- D: X_L, X_H, Y_L, Y_H, Z_L, Z_H
        (bytes.b0, bytes.b1, bytes.b2, bytes.b3, bytes.b4, bytes.b5)
      else if s._device = device_DLH then
        -- DLH: X_H, X_L, Y_H, Y_L, Z_H, Z_L
        (bytes.b1, bytes.b0, bytes.b3, bytes.b2, bytes.b5, bytes.b4)
      else
        -- DLM, DLHC: X_H, X_L, Z_H, Z_L, Y_H, Y_L
        (bytes.b1, bytes.b0, bytes.b5, bytes.b4, bytes.b3, bytes.b2)
    match asg with
    | (xlm, xhm, ylm, yhm, zlm, zhm) =>
      some { s with m :=
        ⟨int16OfNat (hiLo xhm xlm), int16OfNat (hiLo yhm ylm), int16OfNat (hiLo zhm zlm)⟩ }

/-- The per-axis calibration midpoint offsets `((int32_t)m_min + m_max) / 2`
subtracted by `LSM303::heading` (32-bit sum, C truncating division). -/
def headingOffset (s : LSM303) : Vec3 :=
  ⟨Int.tdiv (int32OfInt (s.m_min.x + s.m_max.x)) 2,
   Int.tdiv (int32OfInt (s.m_min.y + s.m_max.y)) 2,
   Int.tdiv (int32OfInt (s.m_min.z + s.m_max.z)) 2⟩

/-- The offset-corrected 32-bit magnetometer vector `temp_m` computed at
the start of `LSM303::heading` (the conversion of the `int16_t` members
of `m` to `int32_t` is exact; the subtraction is 32-bit). -/
def headingTempM (s : LSM303) : Vec3 :=
  ⟨int32OfInt (s.m.x - (headingOffset s).x),
   int32OfInt (s.m.y - (headingOffset s).y),
   int32OfInt (s.m.z - (headingOffset s).z)⟩

/-- A scripted bus: optional response byte per (address, register) probe;
`none` models no acknowledgment. -/
def Probe := Nat → Int → Option Byte

/-- `LSM303::testReg(address, reg)`: the response byte if the device
acknowledged, otherwise the `TEST_REG_NACK` sentinel. -/
def testReg (probe : Probe) (address : Nat) (reg : Int) : Int :=
  match probe address reg with
  | some v => (v.1 : Int)
  | none => TEST_REG_NACK

/-- How `LSM303::init` exits: an explicit `return false`, or control
falling off the end of the (declared `bool`) function body, which returns
no value. -/
inductive InitRet where
  | retFalse
  | fellOff
deriving DecidableEq, Repr

/-- The trailing `switch (device)` of `LSM303::init`: fixes the two
sub-device bus addresses and the six translated magnetometer output
register addresses for the resolved variant.  The C switch has no case
for `device_auto`, so that value changes nothing. -/
def setLayout (device : deviceType) (sa0 : sa0State) (s : LSM303) : LSM303 :=
  match device with
  | device_D =>
    let addr := if sa0 = sa0_high then D_SA0_HIGH_ADDRESS else D_SA0_LOW_ADDRESS
    { s with
      acc_address := addr
      mag_address := addr
      out_x_l_m := D_OUT_X_L_M
      out_x_h_m := D_OUT_X_H_M
      out_y_l_m := D_OUT_Y_L_M
      out_y_h_m := D_OUT_Y_H_M
      out_z_l_m := D_OUT_Z_L_M
      out_z_h_m := D_OUT_Z_H_M }
  | device_DLHC =>
    { s with
      acc_address := NON_D_ACC_SA0_HIGH_ADDRESS
      mag_address := NON_D_MAG_ADDRESS
      out_x_h_m := DLHC_OUT_X_H_M
      out_x_l_m := DLHC_OUT_X_L_M
      out_y_h_m := DLHC_OUT_Y_H_M
      out_y_l_m := DLHC_OUT_Y_L_M
      out_z_h_m := DLHC_OUT_Z_H_M
      out_z_l_m := DLHC_OUT_Z_L_M }
  | device_DLM =>
    { s with
      acc_address := if sa0 = sa0_high then NON_D_ACC_SA0_HIGH_ADDRESS else NON_D_ACC_SA0_LOW_ADDRESS
      mag_address := NON_D_MAG_ADDRESS
      out_x_h_m := DLM_OUT_X_H_M
      out_x_l_m := DLM_OUT_X_L_M
      out_y_h_m := DLM_OUT_Y_H_M
      out_y_l_m := DLM_OUT_Y_L_M
      out_z_h_m := DLM_OUT_Z_H_M
      out_z_l_m := DLM_OUT_Z_L_M }
  | device_DLH =>
    { s with
      acc_address := if sa0 = sa0_high then NON_D_ACC_SA0_HIGH_ADDRESS else NON_D_ACC_SA0_LOW_ADDRESS
      mag_address := NON_D_MAG_ADDRESS
      out_x_h_m := DLH_OUT_X_H_M
      out_x_l_m := DLH_OUT_X_L_M
      out_y_h_m := DLH_OUT_Y_H_M
      out_y_l_m := DLH_OUT_Y_L_M
      out_z_h_m := DLH_OUT_Z_H_M
      out_z_l_m := DLH_OUT_Z_L_M }
  | device_auto => s

/-- `LSM303::init(device, sa0)` against a scripted bus.  Stage 1 is the
`device == device_auto` block, stage 2 the `sa0 == sa0_auto` block; each
`return false` of the source becomes `(InitRet.retFalse, s)` with the
state untouched (the source assigns `_device` and the addresses only
after both stages succeed).  Note: in stage 2's `device_D` branch the
source probes `D_SA0_HIGH_ADDRESS` in both arms (lines 106 and 110 of
LSM303.cpp); the translation keeps that. -/
def init (probe : Probe) (device : deviceType) (sa0 : sa0State) (s : LSM303) :
    InitRet × LSM303 :=
  let step1 : Option (deviceType × sa0State) :=
    if device = device_auto then
      if testReg probe D_SA0_HIGH_ADDRESS WHO_AM_I = D_WHO_ID then
        some (device_D, sa0_high)
      else
        let r := testReg probe D_SA0_LOW_ADDRESS WHO_AM_I
        if r = D_WHO_ID then some (device_D, sa0_low)
        else if r = DLM_WHO_ID then some (device_DLM, sa0)
        else if testReg probe NON_D_ACC_SA0_HIGH_ADDRESS CTRL_REG1_A ≠ TEST_REG_NACK then
          some (device_DLHC, sa0_high)
        else if testReg probe NON_D_ACC_SA0_LOW_ADDRESS CTRL_REG1_A ≠ TEST_REG_NACK then
          some (device_DLH, sa0_low)
        else none
    else some (device, sa0)
  match step1 with
  | none => (InitRet.retFalse, s)
  | some (device1, sa01) =>
    let step2 : Option sa0State :=
      if sa01 = sa0_auto then
        if device1 = device_D then
          if testReg probe D_SA0_HIGH_ADDRESS WHO_AM_I = D_WHO_ID then some sa0_high
          else if testReg probe D_SA0_HIGH_ADDRESS WHO_AM_I = D_WHO_ID then some sa0_low
          else none
        else if device1 = device_DLM ∨ device1 = device_DLH then
          if testReg probe NON_D_ACC_SA0_HIGH_ADDRESS CTRL_REG1_A ≠ TEST_REG_NACK then
            some sa0_high
          else if testReg probe NON_D_ACC_SA0_LOW_ADDRESS CTRL_REG1_A ≠ TEST_REG_NACK then
            some sa0_low
          else none
        else some sa01
      else some sa01
    match step2 with
    | none => (InitRet.retFalse, s)
    | some sa02 =>
      let s1 : LSM303 := { s with _device := device1 }
      (InitRet.fellOff, setLayout device1 sa02 s1)

/-- The physical register address `LSM303::readMagReg` ends up putting on
the bus: the six negative dummy magnetometer output ids are replaced by
the translated addresses stored in the state; everything else passes
through the `if (reg < 0)` switch unchanged. -/
def readMagRegAddr (s : LSM303) (reg : Int) : Int :=
  if reg < 0 then
    if reg = OUT_X_H_M then s.out_x_h_m
    else if reg = OUT_X_L_M then s.out_x_l_m
    else if reg = OUT_Y_H_M then s.out_y_h_m
    else if reg = OUT_Y_L_M then s.out_y_l_m
    else if reg = OUT_Z_H_M then s.out_z_h_m
    else if reg = OUT_Z_L_M then s.out_z_l_m
    else reg
  else reg

/-- Observable destination of `LSM303::writeAccReg` / `readAccReg`: the
bus address transmitted to and the register address written. -/
def accRegDest (s : LSM303) (reg : Int) : Nat × Int := (s.acc_address, reg)

/-- Observable destination of `LSM303::writeMagReg`: the magnetometer
bus address and the register id written unchanged (`writeMagReg` has no
dummy-id translation; only `readMagReg` does). -/
def writeMagRegDest (s : LSM303) (reg : Int) : Nat × Int := (s.mag_address, reg)

/-- Observable destination of `LSM303::readMagReg`: the magnetometer
bus address and the (possibly translated) register put on the bus. -/
def readMagRegDest (s : LSM303) (reg : Int) : Nat × Int := (s.mag_address, readMagRegAddr s reg)

/-- The routing condition shared by `LSM303::writeReg` and
`LSM303::readReg`, translated literally:
`_device == device_D || reg < CTRL_REG1_A || reg == TEMP_OUT_H_M || TEMP_OUT_L_M`.
The final C disjunct tests the constant `TEMP_OUT_L_M` itself (its
truthiness, i.e. that it is non-zero), not a comparison with `reg`. -/
def regRoutesToMag (dev : deviceType) (reg : Int) : Bool :=
  dev = device_D ∨ reg < CTRL_REG1_A ∨ reg = TEMP_OUT_H_M ∨ TEMP_OUT_L_M ≠ 0

/-- Observable destination of `LSM303::writeReg`: route to the
magnetometer sub-device when the routing condition holds, else to the
accelerometer sub-device.  The source comment above `writeReg` says
`writeMagReg` is used "so it can translate OUT_[XYZ]_[HL]_M", but
`writeMagReg` performs no translation, so the write path puts the
register id on the bus unchanged on both branches. -/
def writeRegDest (s : LSM303) (reg : Int) : Nat × Int :=
  if regRoutesToMag s._device reg then writeMagRegDest s reg else accRegDest s reg

/-- Spec-side routing predicate, following the spec's words: route to the
magnetometer exactly for VariantA (device_D), a register id below the
first accelerometer control register, or one of the two temperature
registers. -/
def specRouteToMag (dev : deviceType) (reg : Int) : Bool :=
  dev = device_D ∨ reg < CTRL_REG1_A ∨ reg = TEMP_OUT_H_M ∨ reg = TEMP_OUT_L_M

/-- Observable destination of `LSM303::readReg`: same routing condition
as `writeReg`, but through `readMagReg`, which does translate the dummy
ids. -/
def readRegDest (s : LSM303) (reg : Int) : Nat × Int :=
  if regRoutesToMag s._device reg then readMagRegDest s reg else accRegDest s reg

/-- All three components lie in the `int16_t` range. -/
def inRange16 (v : Vec3) : Prop :=
  -32768 ≤ v.x ∧ v.x ≤ 32767 ∧ -32768 ≤ v.y ∧ v.y ≤ 32767 ∧ -32768 ≤ v.z ∧ v.z ≤ 32767

instance (v : Vec3) : Decidable (inRange16 v) := by
  unfold inRange16
  infer_instance

/-- A concrete all-zero driver state, used to instantiate theorems. -/
def stateZ : LSM303 :=
  ⟨device_auto, ⟨0, 0, 0⟩, ⟨0, 0, 0⟩, ⟨0, 0, 0⟩, ⟨0, 0, 0⟩, 0, false, 0, 0, 0, 0, 0, 0, 0, 0⟩

/-- A scripted bus with a D-variant device strapped high: the
identification register at the unified strap-high address answers with
the D identification byte; nothing else responds. -/
def probeDHigh : Probe :=
  fun addr reg =>
    if addr = D_SA0_HIGH_ADDRESS ∧ reg = WHO_AM_I then some (0x49 : Byte) else none

/-- A scripted bus with a D-variant device strapped low: the
identification register answers only at the unified strap-low address. -/
def probeDLow : Probe :=
  fun addr reg =>
    if addr = D_SA0_LOW_ADDRESS ∧ reg = WHO_AM_I then some (0x49 : Byte) else none

/-- A scripted bus where only the configuration register at the
strap-high non-unified accelerometer address responds. -/
def probeAccHigh : Probe :=
  fun addr reg =>
    if addr = NON_D_ACC_SA0_HIGH_ADDRESS ∧ reg = CTRL_REG1_A then some (0x33 : Byte) else none

/-- A scripted bus where only the configuration register at the
strap-low non-unified accelerometer address responds. -/
def probeAccLow : Probe :=
  fun addr reg =>
    if addr = NON_D_ACC_SA0_LOW_ADDRESS ∧ reg = CTRL_REG1_A then some (0x07 : Byte) else none

/-- A scripted bus where nothing responds. -/
def probeNone : Probe := fun _ _ => none

/-- A concrete 6-byte burst used to instantiate theorems. -/
def burstA : Burst6 := ⟨0x10, 0x00, 0xF0, 0xFF, 0x21, 0x08⟩

/-! ### Helper lemmas -/

theorem hiLo_eq (hi lo : Byte) : hiLo hi lo = hi.1 * 256 + lo.1 := by
  have hlo : lo.1 < 2 ^ 8 := by have h := lo.isLt; omega
  have h2 := Nat.mul_add_lt_is_or hlo hi.1
  show (hi.1 <<< 8) ||| lo.1 = hi.1 * 256 + lo.1
  rw [Nat.shiftLeft_eq, Nat.mul_comm, ← h2]

theorem int16OfNat_range (n : Nat) : -32768 ≤ int16OfNat n ∧ int16OfNat n < 32768 := by
  unfold int16OfNat
  split <;> omega

theorem int16OfNat_mod (n : Nat) : int16OfNat n % 65536 = (n : Int) % 65536 := by
  unfold int16OfNat
  split <;> omega

theorem asr4_floor (v : Int) : 16 * asr4 v ≤ v ∧ v < 16 * asr4 v + 16 := by
  unfold asr4
  rw [Int.fdiv_eq_ediv v (by norm_num)]
  omega

theorem int32OfInt_eq_self (v : Int) (h1 : -2147483648 ≤ v) (h2 : v < 2147483648) :
    int32OfInt v = v := by
  unfold int32OfInt
  split <;> omega

theorem readAcc_success (s : LSM303) (avail : Nat) (bytes : Burst6) (h : 6 ≤ avail) :
    readAcc s avail bytes = some { s with
      did_timeout := false
      a := if s._device ≠ device_D then
             ⟨asr4 (int16OfNat (hiLo bytes.b1 bytes.b0)),
              asr4 (int16OfNat (hiLo bytes.b3 bytes.b2)),
              asr4 (int16OfNat (hiLo bytes.b5 bytes.b4))⟩
           else
             ⟨int16OfNat (hiLo bytes.b1 bytes.b0),
              int16OfNat (hiLo bytes.b3 bytes.b2),
              int16OfNat (hiLo bytes.b5 bytes.b4)⟩ } := by
  unfold readAcc
  rw [if_neg (by omega)]

theorem readMag_success (s : LSM303) (avail : Nat) (bytes : Burst6) (h : 6 ≤ avail) :
    readMag s avail bytes = some { s with
      did_timeout := false
      m := if s._device = device_D then
             ⟨int16OfNat (hiLo bytes.b1 bytes.b0),
              int16OfNat (hiLo bytes.b3 bytes.b2),
              int16OfNat (hiLo bytes.b5 bytes.b4)⟩
           else if s._device = device_DLH then
             ⟨int16OfNat (hiLo bytes.b0 bytes.b1),
              int16OfNat (hiLo bytes.b2 bytes.b3),
              int16OfNat (hiLo bytes.b4 bytes.b5)⟩
           else
             ⟨int16OfNat (hiLo bytes.b0 bytes.b1),
              int16OfNat (hiLo bytes.b4 bytes.b5),
              int16OfNat (hiLo bytes.b2 bytes.b3)⟩ } := by
  unfold readMag
  rw [if_neg (by omega)]
  by_cases hD : s._device = device_D
  · rw [if_pos hD, if_pos hD]
  · rw [if_neg hD, if_neg hD]
    by_cases hH : s._device = device_DLH
    · rw [if_pos hH, if_pos hH]
    · rw [if_neg hH, if_neg hH]

theorem readAcc_timeout (s : LSM303) (avail : Nat) (bytes : Burst6)
    (h1 : avail < 6) (h2 : 0 < s.io_timeout) :
    readAcc s avail bytes = some { s with did_timeout := true } := by
  unfold readAcc
  rw [if_pos h1, if_pos h2]

theorem readMag_timeout (s : LSM303) (avail : Nat) (bytes : Burst6)
    (h1 : avail < 6) (h2 : 0 < s.io_timeout) :
    readMag s avail bytes = some { s with did_timeout := true } := by
  unfold readMag
  rw [if_pos h1, if_pos h2]

theorem regRoutesToMag_true (dev : deviceType) (reg : Int) :
    regRoutesToMag dev reg = true := by
  unfold regRoutesToMag
  simp only [decide_eq_true_eq]
  right; right; right
  unfold TEMP_OUT_L_M
  norm_num

/-! ### Claim theorems -/

/-- C9: a freshly constructed driver has calibration bounds
min = (-32767,-32767,-32767) and max = (32767,32767,32767), so the
per-axis heading offset (min+max)/2 is exactly zero; it starts with the
variant set to auto, timeout 0 (disabled), and the timeout flag false. -/
theorem construct_defaults (uninit : LSM303) :
    (construct uninit).m_min = ⟨-32767, -32767, -32767⟩ ∧
    (construct uninit).m_max = ⟨32767, 32767, 32767⟩ ∧
    (construct uninit)._device = device_auto ∧
    (construct uninit).io_timeout = 0 ∧
    (construct uninit).did_timeout = false ∧
    headingOffset (construct uninit) = ⟨0, 0, 0⟩ :=
  ⟨rfl, rfl, rfl, rfl, rfl, rfl⟩

/-- Witness for C9 at the concrete all-zero initial contents. -/
theorem construct_defaults_witness :
    (construct stateZ).m_min = ⟨-32767, -32767, -32767⟩ ∧
    (construct stateZ).m_max = ⟨32767, 32767, 32767⟩ ∧
    (construct stateZ)._device = device_auto ∧
    (construct stateZ).io_timeout = 0 ∧
    (construct stateZ).did_timeout = false ∧
    headingOffset (construct stateZ) = ⟨0, 0, 0⟩ :=
  construct_defaults stateZ

/-- C6: code bug.  The routing condition of `writeReg`/`readReg` is
always true, because its last C disjunct `|| TEMP_OUT_L_M` tests the
non-zero constant itself instead of comparing it with `reg`; every
access is therefore routed to the magnetometer sub-device, while the
claimed (intended) routing `specRouteToMag` sends, e.g., `CTRL_REG1_A`
on a DLH to the accelerometer. -/
theorem regRouting_always_mag (s : LSM303) (reg : Int) :
    regRoutesToMag s._device reg = true ∧
    writeRegDest s reg = writeMagRegDest s reg ∧
    readRegDest s reg = readMagRegDest s reg ∧
    specRouteToMag device_DLH CTRL_REG1_A = false := by
  have h := regRoutesToMag_true s._device reg
  refine ⟨h, ?_, ?_, by decide⟩
  · unfold writeRegDest
    rw [h]
    rfl
  · unfold readRegDest
    rw [h]
    rfl

/-- C7: code bug.  When resolution fails `init` explicitly returns
false, but on every successful path control falls off the end of the
(declared `bool`) function without a return statement: evaluated on a
bus script where a D with SA0 high answers, `init` ends in `fellOff`
(no well-defined return value), and on a script with no responses it
ends in the explicit `retFalse`. -/
theorem init_success_returns_no_value :
    (init probeDHigh device_auto sa0_auto stateZ).1 = InitRet.fellOff ∧
    (init probeNone device_auto sa0_auto stateZ).1 = InitRet.retFalse :=
  ⟨rfl, rfl⟩

/-- C4: code bug.  With the variant known to be D and the strap
unspecified, the source probes the identification register at the
strap-high address in both arms (lines 106 and 110 of LSM303.cpp), so a
D strapped low (answering only at the strap-low address) makes `init`
return false instead of resolving the strap; the analogous DLM/DLH pair
is probed correctly, resolving strap low from the strap-low
accelerometer address. -/
theorem init_D_sa0_auto_ignores_low_address :
    init probeDLow device_D sa0_auto stateZ = (InitRet.retFalse, stateZ) ∧
    (init probeAccLow device_DLM sa0_auto stateZ).1 = InitRet.fellOff ∧
    ((init probeAccLow device_DLM sa0_auto stateZ).2).acc_address =
      NON_D_ACC_SA0_LOW_ADDRESS :=
  ⟨rfl, rfl, rfl⟩

/-- C1: a sample read is atomic.  If fewer than 6 bytes become available
before the configured timeout elapses, `readAcc`/`readMag` leave the
whole state (in particular the target vector) unchanged except for
setting the timeout flag to true; if the read completes with 6 bytes,
the timeout flag is set to false and the target vector is fully
overwritten: its new value depends only on the device variant and the
six bytes read, not on any prior state (quantification over `t`). -/
theorem read_timeout_atomic (s : LSM303) (avail : Nat) (bytes : Burst6) :
    (avail < 6 → 0 < s.io_timeout →
      readAcc s avail bytes = some { s with did_timeout := true } ∧
      readMag s avail bytes = some { s with did_timeout := true }) ∧
    (6 ≤ avail →
      ∃ s1 s2, readAcc s avail bytes = some s1 ∧ readMag s avail bytes = some s2 ∧
        s1.did_timeout = false ∧ s2.did_timeout = false ∧
        ∀ t : LSM303, t._device = s._device →
          readAcc t avail bytes = some { t with did_timeout := false, a := s1.a } ∧
          readMag t avail bytes = some { t with did_timeout := false, m := s2.m }) := by
  constructor
  · intro h1 h2
    exact ⟨readAcc_timeout s avail bytes h1 h2, readMag_timeout s avail bytes h1 h2⟩
  · intro h
    refine ⟨_, _, readAcc_success s avail bytes h, readMag_success s avail bytes h,
      rfl, rfl, ?_⟩
    intro t ht
    rw [readAcc_success t avail bytes h, readMag_success t avail bytes h, ht]
    exact ⟨rfl, rfl⟩

/-- Witness for C1: a timed-out read (3 bytes, timeout 10 ms) at a
state with a nonzero prior vector, and a completed read. -/
theorem read_timeout_atomic_witness :
    (readAcc { stateZ with io_timeout := 10, a := ⟨1, 2, 3⟩ } 3 burstA =
      some { stateZ with io_timeout := 10, a := ⟨1, 2, 3⟩, did_timeout := true } ∧
     readMag { stateZ with io_timeout := 10, a := ⟨1, 2, 3⟩ } 3 burstA =
      some { stateZ with io_timeout := 10, a := ⟨1, 2, 3⟩, did_timeout := true }) ∧
    (∃ s1 s2, readAcc stateZ 6 burstA = some s1 ∧ readMag stateZ 6 burstA = some s2 ∧
      s1.did_timeout = false ∧ s2.did_timeout = false) := by
  have h1 := (read_timeout_atomic { stateZ with io_timeout := 10, a := ⟨1, 2, 3⟩ } 3
    burstA).1 (by decide) (by decide)
  have h2 := (read_timeout_atomic stateZ 6 burstA).2 (by decide)
  obtain ⟨s1, s2, ha, hm, hd1, hd2, _⟩ := h2
  exact ⟨h1, s1, s2, ha, hm, hd1, hd2⟩

theorem int16_hiLo_char (hi lo : Byte) :
    -32768 ≤ int16OfNat (hiLo hi lo) ∧ int16OfNat (hiLo hi lo) < 32768 ∧
    int16OfNat (hiLo hi lo) % 65536 = ((hi.1 : Int) * 256 + (lo.1 : Int)) % 65536 := by
  refine ⟨(int16OfNat_range _).1, (int16OfNat_range _).2, ?_⟩
  rw [int16OfNat_mod, hiLo_eq]
  push_cast
  ring_nf

/-- C2: each accelerometer axis is combined little-endian (first byte
low, second high) into the unique signed 16-bit value congruent to
high*256+low; for device_D that value is stored unshifted, for every
other variant the stored value is its floor quotient by 16 (an
arithmetic, sign-extending right shift by 4 discarding the low 4
bits). -/
theorem readAcc_shift_decode (s : LSM303) (bytes : Burst6) :
    ∃ s1, readAcc s 6 bytes = some s1 ∧
      ∃ rx ry rz : Int,
        (-32768 ≤ rx ∧ rx < 32768 ∧
          rx % 65536 = ((bytes.b1.1 : Int) * 256 + (bytes.b0.1 : Int)) % 65536) ∧
        (-32768 ≤ ry ∧ ry < 32768 ∧
          ry % 65536 = ((bytes.b3.1 : Int) * 256 + (bytes.b2.1 : Int)) % 65536) ∧
        (-32768 ≤ rz ∧ rz < 32768 ∧
          rz % 65536 = ((bytes.b5.1 : Int) * 256 + (bytes.b4.1 : Int)) % 65536) ∧
        (s._device = device_D → s1.a = ⟨rx, ry, rz⟩) ∧
        (s._device ≠ device_D →
          (16 * s1.a.x ≤ rx ∧ rx < 16 * s1.a.x + 16) ∧
          (16 * s1.a.y ≤ ry ∧ ry < 16 * s1.a.y + 16) ∧
          (16 * s1.a.z ≤ rz ∧ rz < 16 * s1.a.z + 16)) := by
  by_cases hD : s._device = device_D
  · have hs : readAcc s 6 bytes = some { s with
        did_timeout := false
        a := ⟨int16OfNat (hiLo bytes.b1 bytes.b0),
              int16OfNat (hiLo bytes.b3 bytes.b2),
              int16OfNat (hiLo bytes.b5 bytes.b4)⟩ } := by
      rw [readAcc_success s 6 bytes (by omega), if_neg (by simp [hD])]
    refine ⟨_, hs, int16OfNat (hiLo bytes.b1 bytes.b0),
      int16OfNat (hiLo bytes.b3 bytes.b2), int16OfNat (hiLo bytes.b5 bytes.b4),
      int16_hiLo_char _ _, int16_hiLo_char _ _, int16_hiLo_char _ _,
      fun _ => rfl, fun hC => absurd hD hC⟩
  · have hs : readAcc s 6 bytes = some { s with
        did_timeout := false
        a := ⟨asr4 (int16OfNat (hiLo bytes.b1 bytes.b0)),
              asr4 (int16OfNat (hiLo bytes.b3 bytes.b2)),
              asr4 (int16OfNat (hiLo bytes.b5 bytes.b4))⟩ } := by
      rw [readAcc_success s 6 bytes (by omega), if_pos hD]
    refine ⟨_, hs, int16OfNat (hiLo bytes.b1 bytes.b0),
      int16OfNat (hiLo bytes.b3 bytes.b2), int16OfNat (hiLo bytes.b5 bytes.b4),
      int16_hiLo_char _ _, int16_hiLo_char _ _, int16_hiLo_char _ _,
      fun hC => absurd hC hD, fun _ => ⟨asr4_floor _, asr4_floor _, asr4_floor _⟩⟩

/-- Witness for C2 at a concrete DLH state and burst. -/
theorem readAcc_shift_decode_witness :
    ∃ s1, readAcc { stateZ with _device := device_DLH } 6 burstA = some s1 ∧
      ∃ rx ry rz : Int,
        (-32768 ≤ rx ∧ rx < 32768 ∧
          rx % 65536 = ((burstA.b1.1 : Int) * 256 + (burstA.b0.1 : Int)) % 65536) ∧
        (-32768 ≤ ry ∧ ry < 32768 ∧
          ry % 65536 = ((burstA.b3.1 : Int) * 256 + (burstA.b2.1 : Int)) % 65536) ∧
        (-32768 ≤ rz ∧ rz < 32768 ∧
          rz % 65536 = ((burstA.b5.1 : Int) * 256 + (burstA.b4.1 : Int)) % 65536) ∧
        ({ stateZ with _device := device_DLH }._device = device_D → s1.a = ⟨rx, ry, rz⟩) ∧
        ({ stateZ with _device := device_DLH }._device ≠ device_D →
          (16 * s1.a.x ≤ rx ∧ rx < 16 * s1.a.x + 16) ∧
          (16 * s1.a.y ≤ ry ∧ ry < 16 * s1.a.y + 16) ∧
          (16 * s1.a.z ≤ rz ∧ rz < 16 * s1.a.z + 16)) :=
  readAcc_shift_decode { stateZ with _device := device_DLH } burstA

/-- C3: per-variant magnetometer byte order for a completed 6-byte
burst, each axis combined as high*256+low reinterpreted as a signed
16-bit value: device_D takes the bytes in order (X_L, X_H, Y_L, Y_H,
Z_L, Z_H); device_DLH in order (X_H, X_L, Y_H, Y_L, Z_H, Z_L);
device_DLM/device_DLHC in order (X_H, X_L, Z_H, Z_L, Y_H, Y_L), with Z
preceding Y. -/
theorem readMag_byte_order (s : LSM303) (bytes : Burst6)
    (_hdev : s._device ≠ device_auto) :
    ∃ s1, readMag s 6 bytes = some s1 ∧
      s1.m =
        (if s._device = device_D then
          ⟨int16OfNat (bytes.b1.1 * 256 + bytes.b0.1),
           int16OfNat (bytes.b3.1 * 256 + bytes.b2.1),
           int16OfNat (bytes.b5.1 * 256 + bytes.b4.1)⟩
         else if s._device = device_DLH then
          ⟨int16OfNat (bytes.b0.1 * 256 + bytes.b1.1),
           int16OfNat (bytes.b2.1 * 256 + bytes.b3.1),
           int16OfNat (bytes.b4.1 * 256 + bytes.b5.1)⟩
         else
          ⟨int16OfNat (bytes.b0.1 * 256 + bytes.b1.1),
           int16OfNat (bytes.b4.1 * 256 + bytes.b5.1),
           int16OfNat (bytes.b2.1 * 256 + bytes.b3.1)⟩) := by
  refine ⟨_, readMag_success s 6 bytes (by omega), ?_⟩
  show (if s._device = device_D then
          ⟨int16OfNat (hiLo bytes.b1 bytes.b0),
           int16OfNat (hiLo bytes.b3 bytes.b2),
           int16OfNat (hiLo bytes.b5 bytes.b4)⟩
        else if s._device = device_DLH then
          ⟨int16OfNat (hiLo bytes.b0 bytes.b1),
           int16OfNat (hiLo bytes.b2 bytes.b3),
           int16OfNat (hiLo bytes.b4 bytes.b5)⟩
        else
          (⟨int16OfNat (hiLo bytes.b0 bytes.b1),
            int16OfNat (hiLo bytes.b4 bytes.b5),
            int16OfNat (hiLo bytes.b2 bytes.b3)⟩ : Vec3)) = _
  simp only [hiLo_eq]

/-- Witness for C3 at a concrete DLM state and burst. -/
theorem readMag_byte_order_witness :
    ∃ s1, readMag { stateZ with _device := device_DLM } 6 burstA = some s1 ∧
      s1.m =
        (if { stateZ with _device := device_DLM }._device = device_D then
          ⟨int16OfNat (burstA.b1.1 * 256 + burstA.b0.1),
           int16OfNat (burstA.b3.1 * 256 + burstA.b2.1),
           int16OfNat (burstA.b5.1 * 256 + burstA.b4.1)⟩
         else if { stateZ with _device := device_DLM }._device = device_DLH then
          ⟨int16OfNat (burstA.b0.1 * 256 + burstA.b1.1),
           int16OfNat (burstA.b2.1 * 256 + burstA.b3.1),
           int16OfNat (burstA.b4.1 * 256 + burstA.b5.1)⟩
         else
          ⟨int16OfNat (burstA.b0.1 * 256 + burstA.b1.1),
           int16OfNat (burstA.b4.1 * 256 + burstA.b5.1),
           int16OfNat (burstA.b2.1 * 256 + burstA.b3.1)⟩) :=
  readMag_byte_order { stateZ with _device := device_DLM } burstA (by decide)

/-- C5: variant resolution with device_auto is a function of the
scripted bus responses.  If the identification register at the unified
strap-high address answers with the D identification byte 0x49, `init`
resolves to device_D strapped high (both sub-device addresses equal the
unified strap-high address); if neither unified address responds but the
configuration register responds at the strap-high non-unified
accelerometer address, `init` resolves to device_DLHC strapped high. -/
theorem init_auto_scripted (probe : Probe) (sa0 : sa0State) (s : LSM303) :
    (probe D_SA0_HIGH_ADDRESS WHO_AM_I = some (0x49 : Byte) →
      ∃ s1, init probe device_auto sa0 s = (InitRet.fellOff, s1) ∧
        s1._device = device_D ∧ s1.acc_address = D_SA0_HIGH_ADDRESS ∧
        s1.mag_address = D_SA0_HIGH_ADDRESS) ∧
    (probe D_SA0_HIGH_ADDRESS WHO_AM_I = none →
      probe D_SA0_LOW_ADDRESS WHO_AM_I = none →
      (probe NON_D_ACC_SA0_HIGH_ADDRESS CTRL_REG1_A).isSome = true →
      ∃ s1, init probe device_auto sa0 s = (InitRet.fellOff, s1) ∧
        s1._device = device_DLHC ∧ s1.acc_address = NON_D_ACC_SA0_HIGH_ADDRESS ∧
        s1.mag_address = NON_D_MAG_ADDRESS) := by
  constructor
  · intro h
    have ht : testReg probe D_SA0_HIGH_ADDRESS WHO_AM_I = D_WHO_ID := by
      unfold testReg
      rw [h]
      rfl
    have hinit : init probe device_auto sa0 s =
        (InitRet.fellOff, setLayout device_D sa0_high { s with _device := device_D }) := by
      simp [init, ht]
    exact ⟨_, hinit, rfl, rfl, rfl⟩
  · intro h1 h2 h3
    have ht1 : testReg probe D_SA0_HIGH_ADDRESS WHO_AM_I = TEST_REG_NACK := by
      unfold testReg
      rw [h1]
    have ht2 : testReg probe D_SA0_LOW_ADDRESS WHO_AM_I = TEST_REG_NACK := by
      unfold testReg
      rw [h2]
    obtain ⟨v, hv⟩ := Option.isSome_iff_exists.mp h3
    have ht3 : testReg probe NON_D_ACC_SA0_HIGH_ADDRESS CTRL_REG1_A = (v.1 : Int) := by
      unfold testReg
      rw [hv]
    have hne : ¬((v.1 : Int) = TEST_REG_NACK) := by
      unfold TEST_REG_NACK
      omega
    have hinit : init probe device_auto sa0 s =
        (InitRet.fellOff, setLayout device_DLHC sa0_high { s with _device := device_DLHC }) := by
      simp [init, ht1, ht2, ht3, TEST_REG_NACK, D_WHO_ID, DLM_WHO_ID, hne]
    exact ⟨_, hinit, rfl, rfl, rfl⟩

/-- Witness for C5 on two concrete bus scripts: a D strapped high, and a
DLHC answering only at the strap-high accelerometer address. -/
theorem init_auto_scripted_witness :
    (∃ s1, init probeDHigh device_auto sa0_auto stateZ = (InitRet.fellOff, s1) ∧
      s1._device = device_D ∧ s1.acc_address = D_SA0_HIGH_ADDRESS ∧
      s1.mag_address = D_SA0_HIGH_ADDRESS) ∧
    (∃ s1, init probeAccHigh device_auto sa0_auto stateZ = (InitRet.fellOff, s1) ∧
      s1._device = device_DLHC ∧ s1.acc_address = NON_D_ACC_SA0_HIGH_ADDRESS ∧
      s1.mag_address = NON_D_MAG_ADDRESS) :=
  ⟨(init_auto_scripted probeDHigh sa0_auto stateZ).1 rfl,
   (init_auto_scripted probeAccHigh sa0_auto stateZ).2 rfl rfl rfl⟩

theorem tdiv_two_bounds (a : Int) (h1 : -65536 ≤ a) (h2 : a ≤ 65534) :
    -32768 ≤ Int.tdiv a 2 ∧ Int.tdiv a 2 ≤ 32767 := by
  rcases le_or_lt 0 a with h | h
  · rw [Int.tdiv_eq_ediv h (by norm_num)]
    omega
  · have hneg : Int.tdiv a 2 = -Int.tdiv (-a) 2 := by
      rw [Int.neg_tdiv, Int.neg_neg]
    rw [hneg, Int.tdiv_eq_ediv (by omega) (by norm_num)]
    omega

/-- C8: with all magnetometer values and calibration bounds in the
signed 16-bit range, heading's 32-bit computation of the per-axis
midpoint offset (min+max)/2 and its subtraction from the magnetometer
vector are exact: no wrap occurs even at the extremes of the 16-bit
range, so the result equals the same formulas over unbounded
integers. -/
theorem heading_offset_no_overflow (s : LSM303)
    (hm : inRange16 s.m) (hmin : inRange16 s.m_min) (hmax : inRange16 s.m_max) :
    headingOffset s = ⟨Int.tdiv (s.m_min.x + s.m_max.x) 2,
                       Int.tdiv (s.m_min.y + s.m_max.y) 2,
                       Int.tdiv (s.m_min.z + s.m_max.z) 2⟩ ∧
    headingTempM s = ⟨s.m.x - Int.tdiv (s.m_min.x + s.m_max.x) 2,
                      s.m.y - Int.tdiv (s.m_min.y + s.m_max.y) 2,
                      s.m.z - Int.tdiv (s.m_min.z + s.m_max.z) 2⟩ := by
  obtain ⟨ha1, ha2, ha3, ha4, ha5, ha6⟩ := hm
  obtain ⟨hb1, hb2, hb3, hb4, hb5, hb6⟩ := hmin
  obtain ⟨hc1, hc2, hc3, hc4, hc5, hc6⟩ := hmax
  have hsx := int32OfInt_eq_self (s.m_min.x + s.m_max.x) (by omega) (by omega)
  have hsy := int32OfInt_eq_self (s.m_min.y + s.m_max.y) (by omega) (by omega)
  have hsz := int32OfInt_eq_self (s.m_min.z + s.m_max.z) (by omega) (by omega)
  have hoff : headingOffset s = ⟨Int.tdiv (s.m_min.x + s.m_max.x) 2,
      Int.tdiv (s.m_min.y + s.m_max.y) 2, Int.tdiv (s.m_min.z + s.m_max.z) 2⟩ := by
    unfold headingOffset
    rw [hsx, hsy, hsz]
  have hdx := tdiv_two_bounds (s.m_min.x + s.m_max.x) (by omega) (by omega)
  have hdy := tdiv_two_bounds (s.m_min.y + s.m_max.y) (by omega) (by omega)
  have hdz := tdiv_two_bounds (s.m_min.z + s.m_max.z) (by omega) (by omega)
  refine ⟨hoff, ?_⟩
  unfold headingTempM
  rw [hoff]
  have h1 := int32OfInt_eq_self (s.m.x - Int.tdiv (s.m_min.x + s.m_max.x) 2)
    (by omega) (by omega)
  have h2 := int32OfInt_eq_self (s.m.y - Int.tdiv (s.m_min.y + s.m_max.y) 2)
    (by omega) (by omega)
  have h3 := int32OfInt_eq_self (s.m.z - Int.tdiv (s.m_min.z + s.m_max.z) 2)
    (by omega) (by omega)
  rw [h1, h2, h3]

/-- Witness for C8 at the extremes of the signed 16-bit range. -/
theorem heading_offset_no_overflow_witness :
    headingOffset { stateZ with
      m_min := ⟨-32768, 32767, -32768⟩, m_max := ⟨-32768, 32767, 32767⟩ } =
      ⟨Int.tdiv (-32768 + -32768) 2, Int.tdiv (32767 + 32767) 2, Int.tdiv (-32768 + 32767) 2⟩ ∧
    headingTempM { stateZ with
      m_min := ⟨-32768, 32767, -32768⟩, m_max := ⟨-32768, 32767, 32767⟩ } =
      ⟨0 - Int.tdiv (-32768 + -32768) 2, 0 - Int.tdiv (32767 + 32767) 2,
       0 - Int.tdiv (-32768 + 32767) 2⟩ :=
  heading_offset_no_overflow { stateZ with
      m_min := ⟨-32768, 32767, -32768⟩, m_max := ⟨-32768, 32767, 32767⟩ }
    (by decide) (by decide) (by decide)

theorem init_fellOff_layout (probe : Probe) (device : deviceType) (sa0 : sa0State)
    (s0 s1 : LSM303) (h : init probe device sa0 s0 = (InitRet.fellOff, s1)) :
    ∃ d sa, d ≠ device_auto ∧ s1 = setLayout d sa { s0 with _device := d } := by
  simp only [init] at h
  split at h
  · exact absurd h (by simp)
  · rename_i device1 sa01 heq1
    split at h
    · exact absurd h (by simp)
    · rename_i sa02 heq2
      simp only [Prod.mk.injEq, true_and] at h
      refine ⟨device1, sa02, ?_, h.symm⟩
      split at heq1
      · split at heq1
        · simp only [Option.some.injEq, Prod.mk.injEq] at heq1
          exact heq1.1 ▸ (by decide : device_D ≠ device_auto)
        · split at heq1
          · simp only [Option.some.injEq, Prod.mk.injEq] at heq1
            exact heq1.1 ▸ (by decide : device_D ≠ device_auto)
          · split at heq1
            · simp only [Option.some.injEq, Prod.mk.injEq] at heq1
              exact heq1.1 ▸ (by decide : device_DLM ≠ device_auto)
            · split at heq1
              · simp only [Option.some.injEq, Prod.mk.injEq] at heq1
                exact heq1.1 ▸ (by decide : device_DLHC ≠ device_auto)
              · split at heq1
                · simp only [Option.some.injEq, Prod.mk.injEq] at heq1
                  exact heq1.1 ▸ (by decide : device_DLH ≠ device_auto)
                · exact absurd heq1 (by simp)
      · rename_i hne
        simp only [Option.some.injEq, Prod.mk.injEq] at heq1
        exact heq1.1 ▸ hne

/-- C10 counterexample: the frozen claim says `writeReg` inherits the
dummy-id translation via `readMagReg`, but after a completed `init`
resolving a D (where `readMagReg` would translate `OUT_X_L_M` to the
physical address `D_OUT_X_L_M`), `writeReg` puts the untranslated dummy
id itself on the bus, which differs from the translated address. -/
theorem writeReg_translation_counterexample :
    (writeRegDest (init probeDHigh device_auto sa0_auto stateZ).2 OUT_X_L_M).2 = OUT_X_L_M ∧
    readMagRegAddr (init probeDHigh device_auto sa0_auto stateZ).2 OUT_X_L_M = D_OUT_X_L_M ∧
    OUT_X_L_M ≠ D_OUT_X_L_M :=
  ⟨rfl, rfl, by decide⟩

/-- C10 (amended): `readMagReg` translates exactly the six negative
dummy magnetometer axis-output register ids — and `readReg` inherits
the translation by calling `readMagReg` — to the physical addresses
selected for the resolved variant at init time; every id that is not
one of the six (in particular every non-negative id) is passed to the
bus unchanged.  `writeReg` does not inherit the translation:
`writeMagReg` puts the register id on the bus unchanged. -/
theorem readMagReg_translates_read_path (s : LSM303) (reg : Int) (probe : Probe)
    (device : deviceType) (sa0 : sa0State) (s0 s1 : LSM303) :
    (0 ≤ reg → readMagRegAddr s reg = reg) ∧
    (reg ≠ OUT_X_H_M → reg ≠ OUT_X_L_M → reg ≠ OUT_Y_H_M → reg ≠ OUT_Y_L_M →
      reg ≠ OUT_Z_H_M → reg ≠ OUT_Z_L_M → readMagRegAddr s reg = reg) ∧
    readRegDest s reg = (s.mag_address, readMagRegAddr s reg) ∧
    (writeRegDest s reg).2 = reg ∧
    (init probe device sa0 s0 = (InitRet.fellOff, s1) →
      s1._device ≠ device_auto ∧
      (readMagRegAddr s1 OUT_X_L_M, readMagRegAddr s1 OUT_X_H_M,
       readMagRegAddr s1 OUT_Y_L_M, readMagRegAddr s1 OUT_Y_H_M,
       readMagRegAddr s1 OUT_Z_L_M, readMagRegAddr s1 OUT_Z_H_M) =
      (match s1._device with
       | device_D =>
         (D_OUT_X_L_M, D_OUT_X_H_M, D_OUT_Y_L_M, D_OUT_Y_H_M, D_OUT_Z_L_M, D_OUT_Z_H_M)
       | device_DLHC =>
         (DLHC_OUT_X_L_M, DLHC_OUT_X_H_M, DLHC_OUT_Y_L_M, DLHC_OUT_Y_H_M,
          DLHC_OUT_Z_L_M, DLHC_OUT_Z_H_M)
       | device_DLM =>
         (DLM_OUT_X_L_M, DLM_OUT_X_H_M, DLM_OUT_Y_L_M, DLM_OUT_Y_H_M,
          DLM_OUT_Z_L_M, DLM_OUT_Z_H_M)
       | device_DLH =>
         (DLH_OUT_X_L_M, DLH_OUT_X_H_M, DLH_OUT_Y_L_M, DLH_OUT_Y_H_M,
          DLH_OUT_Z_L_M, DLH_OUT_Z_H_M)
       | device_auto => (0, 0, 0, 0, 0, 0))) := by
  refine ⟨?_, ?_, ?_, ?_, ?_⟩
  · intro hpos
    unfold readMagRegAddr
    rw [if_neg (by omega)]
  · intro h1 h2 h3 h4 h5 h6
    unfold readMagRegAddr
    rcases lt_or_le reg 0 with hneg | hpos
    · rw [if_pos hneg, if_neg h2, if_neg h1, if_neg h4, if_neg h3, if_neg h6, if_neg h5]
    · rw [if_neg (by omega)]
  · unfold readRegDest
    rw [regRoutesToMag_true s._device reg]
    rfl
  · unfold writeRegDest
    split <;> rfl
  · intro h
    obtain ⟨d, sa, hd, rfl⟩ := init_fellOff_layout probe device sa0 s0 s1 h
    cases d
    · exact ⟨fun hcon => deviceType.noConfusion hcon, rfl⟩
    · exact ⟨fun hcon => deviceType.noConfusion hcon, rfl⟩
    · exact ⟨fun hcon => deviceType.noConfusion hcon, rfl⟩
    · exact ⟨fun hcon => deviceType.noConfusion hcon, rfl⟩
    · exact absurd rfl hd

/-- Witness for C10 (amended): a non-dummy register passes through
unchanged on both paths, and after a successful `init` on the concrete
D-strap-high bus script the dummies translate to the D addresses on the
read path. -/
theorem readMagReg_translates_read_path_witness :
    (0 ≤ (5 : Int) → readMagRegAddr stateZ 5 = 5) ∧
    ((5 : Int) ≠ OUT_X_H_M → (5 : Int) ≠ OUT_X_L_M → (5 : Int) ≠ OUT_Y_H_M →
      (5 : Int) ≠ OUT_Y_L_M → (5 : Int) ≠ OUT_Z_H_M → (5 : Int) ≠ OUT_Z_L_M →
      readMagRegAddr stateZ 5 = 5) ∧
    readRegDest stateZ 5 = (stateZ.mag_address, readMagRegAddr stateZ 5) ∧
    (writeRegDest stateZ 5).2 = 5 ∧
    (init probeDHigh device_auto sa0_auto stateZ =
        (InitRet.fellOff, (init probeDHigh device_auto sa0_auto stateZ).2) →
      ((init probeDHigh device_auto sa0_auto stateZ).2)._device ≠ device_auto ∧
      (readMagRegAddr (init probeDHigh device_auto sa0_auto stateZ).2 OUT_X_L_M,
       readMagRegAddr (init probeDHigh device_auto sa0_auto stateZ).2 OUT_X_H_M,
       readMagRegAddr (init probeDHigh device_auto sa0_auto stateZ).2 OUT_Y_L_M,
       readMagRegAddr (init probeDHigh device_auto sa0_auto stateZ).2 OUT_Y_H_M,
       readMagRegAddr (init probeDHigh device_auto sa0_auto stateZ).2 OUT_Z_L_M,
       readMagRegAddr (init probeDHigh device_auto sa0_auto stateZ).2 OUT_Z_H_M) =
      (match ((init probeDHigh device_auto sa0_auto stateZ).2)._device with
       | device_D =>
         (D_OUT_X_L_M, D_OUT_X_H_M, D_OUT_Y_L_M, D_OUT_Y_H_M, D_OUT_Z_L_M, D_OUT_Z_H_M)
       | device_DLHC =>
         (DLHC_OUT_X_L_M, DLHC_OUT_X_H_M, DLHC_OUT_Y_L_M, DLHC_OUT_Y_H_M,
          DLHC_OUT_Z_L_M, DLHC_OUT_Z_H_M)
       | device_DLM =>
         (DLM_OUT_X_L_M, DLM_OUT_X_H_M, DLM_OUT_Y_L_M, DLM_OUT_Y_H_M,
          DLM_OUT_Z_L_M, DLM_OUT_Z_H_M)
       | device_DLH =>
         (DLH_OUT_X_L_M, DLH_OUT_X_H_M, DLH_OUT_Y_L_M, DLH_OUT_Y_H_M,
          DLH_OUT_Z_L_M, DLH_OUT_Z_H_M)
       | device_auto => (0, 0, 0, 0, 0, 0))) :=
  readMagReg_translates_read_path stateZ 5 probeDHigh device_auto sa0_auto stateZ
    (init probeDHigh device_auto sa0_auto stateZ).2
